import Mathlib

/-!
A shallow embedding of the conversational AQI bot in `aqi_bot.py`:
the geographic catalog (`REGIONS_DATA`), the AQI classifier
(`get_aqi_description`), the reply-keyboard builders, the report
formatter / fetch wrapper (`fetch_air_quality`, with the network
outcome abstracted as an explicit `ApiResult`), the conversation
handlers (`start_region_selection`, `select_city`,
`get_aqi_by_city_name`, `handle_location`, `cancel_conversation`),
and the update-dispatch loop wired up in `main`.

Modelling conventions:
* Python dicts used as records become Lean structures; the per-user
  `context.user_data` dict becomes the `UserData` structure whose two
  optional fields are the only keys the program ever stores.
* The network call inside `fetch_air_quality` is abstracted by an
  `ApiResult` parameter enumerating the outcomes the source handles:
  a successful payload, an API-level failure (`status != success`),
  an `httpx.RequestError`, and any other unexpected exception.
* Coordinates are carried as the pre-rendered location label string
  (the source only ever uses them via string formatting); numeric
  latitude/longitude and float formatting are outside this embedding.
* `reply_markup` is `some rows` for a `ReplyKeyboardMarkup` and
  `none` when the message removes or omits the keyboard.
* String literals reproduce the source file byte-for-byte (the file
  is stored with double-encoded emoji; the escapes below are the
  exact code points present in the source).
-/

/-- The `{'level': ..., 'message': ...}` dict returned by
`get_aqi_description`. -/
structure AqiInfo where
  level : String
  message : String
deriving DecidableEq, Repr

/-- `{'level': '🟢 Good', ...}` literal from line 302 of the source. -/
def goodInfo : AqiInfo :=
  ⟨"\uf8ff\u00fc\u00fc\u00a2 Good", "Air quality is satisfactory."⟩

/-- `{'level': '🟡 Moderate', ...}` literal from line 304. -/
def moderateInfo : AqiInfo :=
  ⟨"\uf8ff\u00fc\u00fc\u00b0 Moderate",
   "Sensitive individuals should limit outdoor activity."⟩

/-- `{'level': '🟠 Unhealthy for Sensitive Groups', ...}` literal from line 306. -/
def usgInfo : AqiInfo :=
  ⟨"\uf8ff\u00fc\u00fc\u2020 Unhealthy for Sensitive Groups",
   "Sensitive groups may experience health effects."⟩

/-- `{'level': '🔴 Unhealthy', ...}` literal from line 308. -/
def unhealthyInfo : AqiInfo :=
  ⟨"\uf8ff\u00fc\u00ee\u00a5 Unhealthy",
   "Everyone may begin to experience health effects."⟩

/-- `{'level': '🟣 Very Unhealthy', ...}` literal from line 310. -/
def veryUnhealthyInfo : AqiInfo :=
  ⟨"\uf8ff\u00fc\u00fc\u00a3 Very Unhealthy",
   "Health warnings of emergency conditions."⟩

/-- `{'level': '🟤 Hazardous', ...}` literal from line 312. -/
def hazardousInfo : AqiInfo :=
  ⟨"\uf8ff\u00fc\u00fc\u00a7 Hazardous",
   "Health alert: avoid all outdoor exertion."⟩

/-- `get_aqi_description` (source lines 300-312): a chain of Python
chained comparisons `lo <= aqi <= hi`, falling through to the
Hazardous dict. -/
def get_aqi_description (aqi : Int) : AqiInfo :=
  if 0 ≤ aqi ∧ aqi ≤ 50 then goodInfo
  else if 51 ≤ aqi ∧ aqi ≤ 100 then moderateInfo
  else if 101 ≤ aqi ∧ aqi ≤ 150 then usgInfo
  else if 151 ≤ aqi ∧ aqi ≤ 200 then unhealthyInfo
  else if 201 ≤ aqi ∧ aqi ≤ 300 then veryUnhealthyInfo
  else hazardousInfo

/-- One entry of `REGIONS_DATA`: the `state_param` sent to the API and
the ordered city list. -/
structure RegionInfo where
  state_param : String
  cities : List String
deriving DecidableEq, Repr

/-- `REGIONS_DATA` (source lines 51-72), in source (insertion) order. -/
def REGIONS_DATA : List (String × RegionInfo) :=
  [ ("Andijon", ⟨"Andijon", ["Andijon"]⟩),
    ("Bukhara", ⟨"Bukhara", ["Bukhara", "Kagan"]⟩),
    ("Fergana", ⟨"Fergana", ["Fergana", "Kirguli"]⟩),
    ("Jizzax", ⟨"Jizzax", ["Jizzax"]⟩),
    ("Karakalpakstan", ⟨"Karakalpakstan", ["Nukus"]⟩),
    ("Namangan", ⟨"Namangan", ["Namangan"]⟩),
    ("Navoiy", ⟨"Navoiy", ["Navoiy", "Zarafshan"]⟩),
    ("Samarqand", ⟨"Samarqand", ["Samarqand"]⟩),
    ("Sirdaryo", ⟨"Sirdaryo", ["Guliston"]⟩),
    ("Toshkent", ⟨"Toshkent",
      ["Amirsoy", "Chorvoq", "G\u0027azalkent", "Parkent", "Qibray",
       "Salor", "Sidzhak", "Tuytepa", "Urtaowul"]⟩),
    ("Toshkent Shahri", ⟨"Toshkent Shahri", ["Tashkent"]⟩),
    ("Xorazm", ⟨"Xorazm", ["Pitnak", "Urganch"]⟩),
    ("Qashqadaryo", ⟨"Qashqadaryo", []⟩),
    ("Surxondaryo", ⟨"Surxondaryo", []⟩) ]

/-- Association-list lookup, mirroring Python dict access on
`REGIONS_DATA` (keys are unique). -/
def lookupAssoc : List (String × RegionInfo) → String → Option RegionInfo
  | [], _ => none
  | (k, v) :: rest, n => if n = k then some v else lookupAssoc rest n

/-- `REGIONS_DATA[name]` / `REGIONS_DATA.get(name)`. -/
def lookupRegion (n : String) : Option RegionInfo :=
  lookupAssoc REGIONS_DATA n

/-- `REGIONS_DATA.get(region_name, {}).get('cities', [])` where the
key may be Python `None` or an unknown name. -/
def citiesOf : Option String → List String
  | none => []
  | some n =>
    match lookupRegion n with
    | none => []
    | some info => info.cities

/-- `BUTTON_REGIONS` (source line 168, "\uf8ff\u00fc\u00e5\u00e7 Select Region"). -/
def BUTTON_REGIONS : String := "\uf8ff\u00fc\u00e5\u00e7 Select Region"

/-- `BUTTON_MY_LOCATION` (source line 169, "\uf8ff\u00fc\u00ec\u00e7 My Location"). -/
def BUTTON_MY_LOCATION : String := "\uf8ff\u00fc\u00ec\u00e7 My Location"

/-- `BUTTON_BACK_MAIN` (source line 170, "\u201a\u00a8\u00d6\u00d4\u220f\u00e8 Back to Main Menu"). -/
def BUTTON_BACK_MAIN : String :=
  "\u201a\u00a8\u00d6\u00d4\u220f\u00e8 Back to Main Menu"

/-- `BUTTON_BACK_REGION` (source line 171, "\u201a\u00a8\u00d6\u00d4\u220f\u00e8 Back to Regions"). -/
def BUTTON_BACK_REGION : String :=
  "\u201a\u00a8\u00d6\u00d4\u220f\u00e8 Back to Regions"

/-- `MAIN_KEYBOARD` rows (source lines 173-180). -/
def MAIN_KEYBOARD : List (List String) :=
  [[BUTTON_REGIONS], [BUTTON_MY_LOCATION]]

/-- Lexicographic-by-code-point strict comparison on char lists, the
order Python string `<` uses. -/
def charListLt : List Char → List Char → Bool
  | [], [] => false
  | [], _ :: _ => true
  | _ :: _, [] => false
  | a :: as, b :: bs =>
    if a < b then true else if b < a then false else charListLt as bs

/-- Python `str <` (code-point lexicographic). -/
def strLt (a b : String) : Bool := charListLt a.data b.data

/-- Python `str <=`: strictly less or equal. -/
def strLe (a b : String) : Bool := strLt a b || a == b

/-- Insert into a `strLe`-sorted list. -/
def insertStr (x : String) : List String → List String
  | [] => [x]
  | y :: ys => if strLe x y then x :: y :: ys else y :: insertStr x ys

/-- Python `sorted` on a list of strings (insertion sort; the keys
are distinct, so stability is irrelevant). -/
def sortStrings : List String → List String
  | [] => []
  | x :: xs => insertStr x (sortStrings xs)

/-- The row-packing loop shared by both keyboard builders: fill
`current_row` up to 2 entries, flushing a leftover partial row. -/
def packGo (cur : List String) : List String → List (List String)
  | [] => if cur.isEmpty then [] else [cur]
  | x :: xs =>
    if (cur ++ [x]).length = 2 then (cur ++ [x]) :: packGo [] xs
    else packGo (cur ++ [x]) xs

/-- `get_region_reply_keyboard` (source lines 182-204): rows of two
over `sorted(REGIONS_DATA.keys())`, then the back-to-main row. -/
def get_region_reply_keyboard : List (List String) :=
  packGo [] (sortStrings (REGIONS_DATA.map Prod.fst)) ++ [[BUTTON_BACK_MAIN]]

/-- `REGION_REPLY_KEYBOARD` (source line 204). -/
def REGION_REPLY_KEYBOARD : List (List String) := get_region_reply_keyboard

/-- `get_city_reply_keyboard` (source lines 206-226); the argument may
be Python `None` (when no region is stored in the session). -/
def get_city_reply_keyboard (region_name : Option String) : List (List String) :=
  packGo [] (citiesOf region_name) ++ [[BUTTON_BACK_REGION]]

/-- The two shapes of location input `fetch_air_quality` accepts:
coordinates (carried as the pre-rendered
`"Location (Lat: …, Lon …)"` label) or a city/state pair. -/
inductive LocationQuery
  | coords (label : String)
  | cityState (city state : String)
deriving DecidableEq, Repr

/-- The outcome of the one network round-trip inside
`fetch_air_quality`: a successful IQAir payload (with the
nearest-city fields used only by the coordinate branch), an API-level
failure (`status != 'success'`), an `httpx.RequestError`, or any
other exception. -/
inductive ApiResult
  | success (respCity respState : Option String) (aqi : Int)
      (pollutant : String) (temp : Int)
  | apiFailure (msg : String)
  | requestError
  | unexpectedError
deriving DecidableEq, Repr

/-- The success-path message template (source lines 284-290);
`quality_info` is `get_aqi_description aqi`. -/
def formatReport (location_name : String) (aqi : Int)
    (pollutant : String) (temp : Int) : String :=
  "**" ++ location_name ++
  " Air Quality** \uf8ff\u00fc\u00ed\u00ae\n\n**Current AQI (US):** " ++
  toString aqi ++ " - " ++ (get_aqi_description aqi).level ++
  "\n**Main Pollutant:** " ++ pollutant ++
  "\n**Temperature:** " ++ toString temp ++
  "\u00ac\u221eC\n\n\u201a\u00d1\u03c0\u00d4\u220f\u00e8 *" ++
  (get_aqi_description aqi).message ++ "*"

/-- "\u201a\u00f9\u00e5 Network or API communication error." (source line 295). -/
def NETWORK_ERROR_MSG : String :=
  "\u201a\u00f9\u00e5 Network or API communication error."

/-- "\u201a\u00f9\u00e5 An internal error occurred." (source line 298). -/
def INTERNAL_ERROR_MSG : String :=
  "\u201a\u00f9\u00e5 An internal error occurred."

/-- `fetch_air_quality` (source lines 231-298), with the HTTP
round-trip abstracted as `r`.  `main` refuses to start without
`IQAIR_API_KEY`, so the missing-key early return is unreachable at
runtime and not modelled.  In the coordinate branch a success
overwrites `location_name` with the city/state resolved from the
response; in the city branch empty strings fail the Python
truthiness test `elif city and state` and yield the
invalid-parameters message before any request is made. -/
def fetch_air_quality (q : LocationQuery) (r : ApiResult) : String :=
  match q with
  | LocationQuery.coords label =>
    match r with
    | ApiResult.success respCity respState aqi pollutant temp =>
      formatReport ((respCity.getD "Unknown City") ++ ", " ++ (respState.getD ""))
        aqi pollutant temp
    | ApiResult.apiFailure msg =>
      "\u201a\u00f9\u00e5 Error fetching data for " ++ label ++ ": *" ++ msg ++ "*"
    | ApiResult.requestError => NETWORK_ERROR_MSG
    | ApiResult.unexpectedError => INTERNAL_ERROR_MSG
  | LocationQuery.cityState city state =>
    if city = "" ∨ state = "" then
      "\u201a\u00f9\u00e5 Invalid location parameters provided."
    else
      match r with
      | ApiResult.success _ _ aqi pollutant temp =>
        formatReport (city ++ ", " ++ state) aqi pollutant temp
      | ApiResult.apiFailure msg =>
        "\u201a\u00f9\u00e5 Error fetching data for " ++ (city ++ ", " ++ state) ++
          ": *" ++ msg ++ "*"
      | ApiResult.requestError => NETWORK_ERROR_MSG
      | ApiResult.unexpectedError => INTERNAL_ERROR_MSG

/-- The per-user `context.user_data` dict.  The program only ever
stores the keys `'selected_state_param'` and `'selected_region_name'`
(source lines 372-373); `none` models an absent key, and
`context.user_data.clear()` resets both to `none`. -/
structure UserData where
  selected_state_param : Option String
  selected_region_name : Option String
deriving DecidableEq, Repr

/-- A cleared session (`context.user_data.clear()` / a fresh user). -/
def emptyUserData : UserData := ⟨none, none⟩

/-- One outbound message: its text and the `reply_markup` rows
(`none` when the keyboard is removed or not set). -/
structure Reply where
  text : String
  keyboard : Option (List (List String))
deriving DecidableEq, Repr

/-- The value a conversation handler returns: `CHOOSING_REGION`,
`CHOOSING_CITY`, or `ConversationHandler.END`. -/
inductive ConvResult
  | choosingRegion
  | choosingCity
  | ended
deriving DecidableEq, Repr

/-- What one handler invocation does: messages sent, the session data
it leaves behind, its return value, and the air-quality fetch it
performed (if any). -/
structure HandlerOut where
  replies : List Reply
  data : UserData
  result : ConvResult
  fetchCall : Option LocationQuery
deriving DecidableEq, Repr

/-- `start_region_selection` (source lines 317-332): shows the region
keyboard and moves to `CHOOSING_REGION`; it never touches
`user_data`. -/
def start_region_selection (d : UserData) : HandlerOut :=
  ⟨[⟨"\uf8ff\u00fc\u00f3\u222b\u00d4\u220f\u00e8 Please choose a region:",
     some REGION_REPLY_KEYBOARD⟩],
   d, ConvResult.choosingRegion, none⟩

/-- The `CHOOSING_CITY` message for a region with stations (source
line 377). -/
def chooseCityMsg (region_name : String) : String :=
  "\uf8ff\u00fc\u00e8\u00f4\u00d4\u220f\u00e8 Now choose a city in **" ++
  region_name ++ "**:"

/-- The `CHOOSING_CITY` message for a region with no stations (source
line 379). -/
def noStationsMsg (region_name : String) : String :=
  "\u201a\u00f6\u2020\u00d4\u220f\u00e8 No monitoring stations listed for **" ++
  region_name ++ "**. Use the back button."

/-- `select_city` (source lines 334-386), the `CHOOSING_REGION`
handler: back-to-main clears the session and ends; an unknown region
re-prompts with the region keyboard and stays in `CHOOSING_REGION`;
a known region stores `selected_state_param` /
`selected_region_name` and moves to `CHOOSING_CITY` with the city
keyboard (or the no-stations notice when the city list is empty). -/
def select_city (text : String) (d : UserData) : HandlerOut :=
  if text = BUTTON_BACK_MAIN then
    ⟨[⟨"Main menu restored.", some MAIN_KEYBOARD⟩],
     emptyUserData, ConvResult.ended, none⟩
  else
    match lookupRegion text with
    | none =>
      ⟨[⟨"\u201a\u00f9\u00e5 Invalid region. Please choose a button from the keyboard below.",
         some REGION_REPLY_KEYBOARD⟩],
       d, ConvResult.choosingRegion, none⟩
    | some info =>
      ⟨[⟨(if info.cities.isEmpty then noStationsMsg text else chooseCityMsg text),
         some (get_city_reply_keyboard (some text))⟩],
       ⟨some info.state_param, some text⟩, ConvResult.choosingCity, none⟩

/-- The invalid-selection branch of `get_aqi_by_city_name` (source
lines 409-414). -/
def invalidCityOut (d : UserData) : HandlerOut :=
  ⟨[⟨"\u201a\u00f9\u00e5 Invalid city selection. Please use the buttons.",
     some (get_city_reply_keyboard d.selected_region_name)⟩],
   d, ConvResult.choosingCity, none⟩

/-- The "🔎 Fetching AQI for **…**..." notice (source line 428). -/
def fetchingMsg (city_name : String) : String :=
  "\uf8ff\u00fc\u00ee\u00e9 Fetching AQI for **" ++ city_name ++ "**..."

/-- `get_aqi_by_city_name` (source lines 388-442), the
`CHOOSING_CITY` handler: back-to-regions returns to
`CHOOSING_REGION` leaving the session untouched; a missing/empty
stored `state_param` (Python truthiness `not state_param`) or a city
not in the stored region's list re-prompts and stays in
`CHOOSING_CITY`; otherwise it fetches by city/state, sends the
report, clears the session and ends. -/
def get_aqi_by_city_name (text : String) (d : UserData) (r : ApiResult) :
    HandlerOut :=
  if text = BUTTON_BACK_REGION then
    ⟨[⟨"Returning to region selection...", some REGION_REPLY_KEYBOARD⟩],
     d, ConvResult.choosingRegion, none⟩
  else
    match d.selected_state_param with
    | none => invalidCityOut d
    | some sp =>
      if sp = "" ∨ text ∉ citiesOf d.selected_region_name then
        invalidCityOut d
      else
        ⟨[⟨fetchingMsg text, none⟩,
          ⟨fetch_air_quality (LocationQuery.cityState text sp) r, none⟩,
          ⟨"Select another option:", some MAIN_KEYBOARD⟩],
         emptyUserData, ConvResult.ended,
         some (LocationQuery.cityState text sp)⟩

/-- `cancel_conversation` (source lines 445-463): restores the main
menu, clears the session and ends. -/
def cancel_conversation (_d : UserData) : HandlerOut :=
  ⟨[⟨"Conversation cancelled. Main menu restored.", some MAIN_KEYBOARD⟩],
   emptyUserData, ConvResult.ended, none⟩

/-- `handle_location` (source lines 487-518): fetches by the shared
coordinates and replies, but never touches `context.user_data`; its
`return ConversationHandler.END` is modelled by `ConvResult.ended`
(see `dispatch` for why that value has no effect). -/
def handle_location (label : String) (d : UserData) (r : ApiResult) :
    HandlerOut :=
  ⟨[⟨"\uf8ff\u00fc\u00ec\u00e7 Location received! Searching for the nearest station...",
     none⟩,
    ⟨fetch_air_quality (LocationQuery.coords label) r, none⟩,
    ⟨"Select another option:", some MAIN_KEYBOARD⟩],
   d, ConvResult.ended, some (LocationQuery.coords label)⟩

/-- The `ConversationHandler`'s per-chat state: `CHOOSING_REGION`,
`CHOOSING_CITY`, or no active conversation. -/
inductive ConvState
  | choosingRegion
  | choosingCity
deriving DecidableEq, Repr

/-- The per-chat application state: the `ConversationHandler`'s
recorded state (`none` = idle, no active conversation) plus the
session dict. -/
structure AppState where
  conv : Option ConvState
  data : UserData
deriving DecidableEq, Repr

/-- The inbound updates relevant to the handlers under study: a text
message, or a shared location (carried as its rendered label). -/
inductive Inbound
  | textMsg (s : String)
  | locationMsg (label : String)
deriving DecidableEq, Repr

/-- How a conversation-handler return value updates the
`ConversationHandler`'s recorded state. -/
def resultConv : ConvResult → Option ConvState
  | ConvResult.choosingRegion => some ConvState.choosingRegion
  | ConvResult.choosingCity => some ConvState.choosingCity
  | ConvResult.ended => none

/-- One turn of update dispatch, as wired in `main` (source lines
549-573) under python-telegram-bot's rules: within a handler group
the first handler whose check matches handles the update, and only a
handler registered inside a `ConversationHandler` can change that
conversation's state.  The location `MessageHandler` (line 569) is
registered on the application, before and outside the
`ConversationHandler` (line 572), so a shared location is always
handled by `handle_location`, whose `END` return value is discarded
and whose body never clears `user_data` — the conversation state and
session survive unchanged.  A text update reaches the
`ConversationHandler`: its entry point fires on exactly
`BUTTON_REGIONS` when no conversation is active, and otherwise the
per-state `MessageHandler`s run and their return value becomes the
new conversation state. -/
def dispatch (st : AppState) (u : Inbound) (r : ApiResult) :
    AppState × List Reply × Option LocationQuery :=
  match u with
  | Inbound.locationMsg label =>
    let o := handle_location label st.data r
    (⟨st.conv, o.data⟩, o.replies, o.fetchCall)
  | Inbound.textMsg s =>
    match st.conv with
    | none =>
      if s = BUTTON_REGIONS then
        let o := start_region_selection st.data
        (⟨resultConv o.result, o.data⟩, o.replies, o.fetchCall)
      else (st, [], none)
    | some ConvState.choosingRegion =>
      let o := select_city s st.data
      (⟨resultConv o.result, o.data⟩, o.replies, o.fetchCall)
    | some ConvState.choosingCity =>
      let o := get_aqi_by_city_name s st.data r
      (⟨resultConv o.result, o.data⟩, o.replies, o.fetchCall)

/-- `String` append acts as list append on the underlying characters. -/
theorem str_data_append (s t : String) : (s ++ t).data = s.data ++ t.data := rfl

/-- A successful association-list lookup returns a stored pair. -/
theorem lookupAssoc_mem {l : List (String × RegionInfo)} {n : String}
    {i : RegionInfo} (h : lookupAssoc l n = some i) : (n, i) ∈ l := by
  induction l with
  | nil => exact Option.noConfusion h
  | cons p rest ih =>
    obtain ⟨k, v⟩ := p
    by_cases hk : n = k
    · subst hk
      rw [lookupAssoc, if_pos rfl] at h
      cases h
      exact List.mem_cons_self _ _
    · rw [lookupAssoc, if_neg hk] at h
      exact List.mem_cons_of_mem _ (ih h)

/-- Every catalog entry has a non-empty `state_param`, and no listed
city collides with the back button or the empty string (checked over
the concrete catalog). -/
theorem catalog_entries_wf : ∀ p ∈ REGIONS_DATA, p.2.state_param ≠ "" ∧
    ∀ c ∈ p.2.cities, c ≠ BUTTON_BACK_REGION ∧ c ≠ "" := by decide

/-- The back-to-main label is not a region key. -/
theorem lookup_back_main_none : lookupRegion BUTTON_BACK_MAIN = none := by decide

/-- A found region's `state_param` is non-empty. -/
theorem lookupRegion_state_param_ne {n : String} {i : RegionInfo}
    (h : lookupRegion n = some i) : i.state_param ≠ "" :=
  (catalog_entries_wf (n, i) (lookupAssoc_mem h)).1

/-- A found region's cities avoid the back label and the empty string. -/
theorem lookupRegion_city_wf {n : String} {i : RegionInfo}
    (h : lookupRegion n = some i) {c : String} (hc : c ∈ i.cities) :
    c ≠ BUTTON_BACK_REGION ∧ c ≠ "" :=
  (catalog_entries_wf (n, i) (lookupAssoc_mem h)).2 c hc

/-- `citiesOf` after a successful lookup is the region's city list. -/
theorem citiesOf_some {n : String} {i : RegionInfo}
    (h : lookupRegion n = some i) : citiesOf (some n) = i.cities := by
  simp [citiesOf, h]

/-- C1: for every integer `aqi ≥ 0`, `get_aqi_description` returns
exactly one of the six severity tiers, and the bands partition the
non-negative integers with no gaps: 0-50 Good, 51-100 Moderate,
101-150 Unhealthy for Sensitive Groups, 151-200 Unhealthy, 201-300
Very Unhealthy, and everything above 300 Hazardous (so in particular
the boundaries 50/51, 100/101, 150/151, 200/201, 300/301 fall in the
stated bands). -/
theorem aqi_bands_partition (aqi : Int) (h : 0 ≤ aqi) :
    (get_aqi_description aqi = goodInfo ↔ aqi ≤ 50) ∧
    (get_aqi_description aqi = moderateInfo ↔ 51 ≤ aqi ∧ aqi ≤ 100) ∧
    (get_aqi_description aqi = usgInfo ↔ 101 ≤ aqi ∧ aqi ≤ 150) ∧
    (get_aqi_description aqi = unhealthyInfo ↔ 151 ≤ aqi ∧ aqi ≤ 200) ∧
    (get_aqi_description aqi = veryUnhealthyInfo ↔ 201 ≤ aqi ∧ aqi ≤ 300) ∧
    (get_aqi_description aqi = hazardousInfo ↔ 300 < aqi) := by
  unfold get_aqi_description
  split_ifs with h1 h2 h3 h4 h5 <;>
    refine ⟨⟨fun hx => ?_, fun hx => ?_⟩, ⟨fun hx => ?_, fun hx => ?_⟩,
            ⟨fun hx => ?_, fun hx => ?_⟩, ⟨fun hx => ?_, fun hx => ?_⟩,
            ⟨fun hx => ?_, fun hx => ?_⟩, ⟨fun hx => ?_, fun hx => ?_⟩⟩ <;>
    first
      | rfl
      | omega
      | exact absurd hx (by decide)

/-- Witness for C1 at the boundary value 51 (in the Moderate band). -/
theorem aqi_bands_partition_witness :
    (0 : Int) ≤ 51 ∧
    ((get_aqi_description 51 = goodInfo ↔ (51 : Int) ≤ 50) ∧
     (get_aqi_description 51 = moderateInfo ↔ (51 : Int) ≤ 51 ∧ (51 : Int) ≤ 100) ∧
     (get_aqi_description 51 = usgInfo ↔ (101 : Int) ≤ 51 ∧ (51 : Int) ≤ 150) ∧
     (get_aqi_description 51 = unhealthyInfo ↔ (151 : Int) ≤ 51 ∧ (51 : Int) ≤ 200) ∧
     (get_aqi_description 51 = veryUnhealthyInfo ↔ (201 : Int) ≤ 51 ∧ (51 : Int) ≤ 300) ∧
     (get_aqi_description 51 = hazardousInfo ↔ (300 : Int) < 51)) :=
  ⟨by decide, aqi_bands_partition 51 (by decide)⟩

/-- C9: every negative `aqi` falls through every band check and is
classified Hazardous; the classifier is total and never raises. -/
theorem negative_aqi_hazardous (aqi : Int) (h : aqi < 0) :
    get_aqi_description aqi = hazardousInfo := by
  unfold get_aqi_description
  split_ifs <;> first | rfl | omega

/-- Witness for C9 at `aqi = -5`. -/
theorem negative_aqi_hazardous_witness :
    (-5 : Int) < 0 ∧ get_aqi_description (-5) = hazardousInfo :=
  ⟨by decide, negative_aqi_hazardous (-5) (by decide)⟩

/-- C10: choosing back-to-regions in `CHOOSING_CITY` returns to
`CHOOSING_REGION` with the session untouched — the stored
`selected_state_param` / `selected_region_name` keys survive, and no
fetch happens; by contrast the back-to-main branch and cancellation
do clear the session (a completed report clears it too, see the C2
theorem). -/
theorem back_to_regions_keeps_session (d : UserData) (r : ApiResult) :
    get_aqi_by_city_name BUTTON_BACK_REGION d r =
      ⟨[⟨"Returning to region selection...", some REGION_REPLY_KEYBOARD⟩],
       d, ConvResult.choosingRegion, none⟩ ∧
    (select_city BUTTON_BACK_MAIN d).data = emptyUserData ∧
    (cancel_conversation d).data = emptyUserData := by
  refine ⟨?_, rfl, rfl⟩
  unfold get_aqi_by_city_name
  rw [if_pos rfl]

/-- C7: entering region selection, backing out to the main menu, and
entering again leaves the session exactly as a fresh entry does: the
entry step stores nothing and the back branch clears everything. -/
theorem back_nav_session_clean (d : UserData) :
    (start_region_selection d).data = d ∧
    (select_city BUTTON_BACK_MAIN (start_region_selection d).data).data
      = emptyUserData ∧
    (start_region_selection
        (select_city BUTTON_BACK_MAIN (start_region_selection d).data).data)
      = start_region_selection emptyUserData := by
  refine ⟨rfl, ?_, ?_⟩
  · unfold select_city
    rw [if_pos rfl]
  · unfold select_city
    rw [if_pos rfl]

/-- C3: an unknown selection never advances state.  In
`CHOOSING_REGION`, a text that is neither the back control nor a
known region re-renders the region menu with the error notice,
leaves the session unchanged and stays in `CHOOSING_REGION`; in
`CHOOSING_CITY`, a text that is neither the back control nor a city
of the stored region re-renders the city menu with the error notice,
leaves the session unchanged and stays in `CHOOSING_CITY`; neither
branch invokes a fetch. -/
theorem unknown_selection_self_loop
    (s : String) (d : UserData)
    (hs1 : s ≠ BUTTON_BACK_MAIN) (hs2 : lookupRegion s = none)
    (t : String) (d2 : UserData) (r : ApiResult)
    (ht1 : t ≠ BUTTON_BACK_REGION)
    (ht2 : t ∉ citiesOf d2.selected_region_name) :
    select_city s d =
      ⟨[⟨"\u201a\u00f9\u00e5 Invalid region. Please choose a button from the keyboard below.",
         some REGION_REPLY_KEYBOARD⟩],
       d, ConvResult.choosingRegion, none⟩ ∧
    get_aqi_by_city_name t d2 r =
      ⟨[⟨"\u201a\u00f9\u00e5 Invalid city selection. Please use the buttons.",
         some (get_city_reply_keyboard d2.selected_region_name)⟩],
       d2, ConvResult.choosingCity, none⟩ := by
  constructor
  · unfold select_city
    rw [if_neg hs1, hs2]
  · unfold get_aqi_by_city_name
    rw [if_neg ht1]
    cases hsp : d2.selected_state_param with
    | none => rfl
    | some sp =>
      show (if sp = "" ∨ t ∉ citiesOf d2.selected_region_name then
              invalidCityOut d2 else _) = _
      rw [if_pos (Or.inr ht2)]
      rfl

/-- Witness for C3: "Mars" in `CHOOSING_REGION`, and "Atlantis" in
`CHOOSING_CITY` with region Bukhara stored. -/
theorem unknown_selection_self_loop_witness :
    ("Mars" ≠ BUTTON_BACK_MAIN) ∧ (lookupRegion "Mars" = none) ∧
    ("Atlantis" ≠ BUTTON_BACK_REGION) ∧
    ("Atlantis" ∉
      citiesOf (UserData.mk (some "Bukhara") (some "Bukhara")).selected_region_name) ∧
    (select_city "Mars" emptyUserData =
      ⟨[⟨"\u201a\u00f9\u00e5 Invalid region. Please choose a button from the keyboard below.",
         some REGION_REPLY_KEYBOARD⟩],
       emptyUserData, ConvResult.choosingRegion, none⟩ ∧
     get_aqi_by_city_name "Atlantis" ⟨some "Bukhara", some "Bukhara"⟩
        ApiResult.requestError =
      ⟨[⟨"\u201a\u00f9\u00e5 Invalid city selection. Please use the buttons.",
         some (get_city_reply_keyboard
            (UserData.mk (some "Bukhara") (some "Bukhara")).selected_region_name)⟩],
       ⟨some "Bukhara", some "Bukhara"⟩, ConvResult.choosingCity, none⟩) :=
  ⟨by decide, by decide, by decide, by decide,
   unknown_selection_self_loop "Mars" emptyUserData (by decide) (by decide)
     "Atlantis" ⟨some "Bukhara", some "Bukhara"⟩ ApiResult.requestError
     (by decide) (by decide)⟩

/-- C6: selecting a catalog region whose city list is empty renders
the no-stations notice with a keyboard whose only row is the
back-to-regions control, stores the region, and still moves to
`CHOOSING_CITY`. -/
theorem empty_region_no_city_buttons
    (rname : String) (info : RegionInfo)
    (h : lookupRegion rname = some info) (hc : info.cities = [])
    (d : UserData) :
    select_city rname d =
      ⟨[⟨noStationsMsg rname, some [[BUTTON_BACK_REGION]]⟩],
       ⟨some info.state_param, some rname⟩, ConvResult.choosingCity, none⟩ := by
  have hne : rname ≠ BUTTON_BACK_MAIN := by
    intro he
    rw [he, lookup_back_main_none] at h
    exact Option.noConfusion h
  have hkb : get_city_reply_keyboard (some rname) = [[BUTTON_BACK_REGION]] := by
    unfold get_city_reply_keyboard
    rw [citiesOf_some h, hc]
    rfl
  unfold select_city
  rw [if_neg hne, h]
  simp [hc, hkb]

/-- Witness for C6 at the empty-city region Qashqadaryo. -/
theorem empty_region_no_city_buttons_witness :
    lookupRegion "Qashqadaryo" = some ⟨"Qashqadaryo", []⟩ ∧
    (⟨"Qashqadaryo", []⟩ : RegionInfo).cities = [] ∧
    select_city "Qashqadaryo" emptyUserData =
      ⟨[⟨noStationsMsg "Qashqadaryo", some [[BUTTON_BACK_REGION]]⟩],
       ⟨some "Qashqadaryo", some "Qashqadaryo"⟩, ConvResult.choosingCity, none⟩ :=
  ⟨by decide, rfl,
   empty_region_no_city_buttons "Qashqadaryo" ⟨"Qashqadaryo", []⟩
     (by decide) rfl emptyUserData⟩

/-- C5: a valid city selection whose fetch fails with a request error
or an unexpected exception still sends the plain-language error
string in place of a report, clears the session and ends the
conversation; no exception escapes the turn (the handler is total). -/
theorem fetch_failure_resets
    (rname : String) (info : RegionInfo) (city : String)
    (h : lookupRegion rname = some info) (hc : city ∈ info.cities)
    (r : ApiResult)
    (hr : r = ApiResult.requestError ∨ r = ApiResult.unexpectedError) :
    get_aqi_by_city_name city ⟨some info.state_param, some rname⟩ r =
      ⟨[⟨fetchingMsg city, none⟩,
        ⟨fetch_air_quality (LocationQuery.cityState city info.state_param) r,
         none⟩,
        ⟨"Select another option:", some MAIN_KEYBOARD⟩],
       emptyUserData, ConvResult.ended,
       some (LocationQuery.cityState city info.state_param)⟩ ∧
    (fetch_air_quality (LocationQuery.cityState city info.state_param) r
        = NETWORK_ERROR_MSG ∨
     fetch_air_quality (LocationQuery.cityState city info.state_param) r
        = INTERNAL_ERROR_MSG) := by
  obtain ⟨hback, hcne⟩ := lookupRegion_city_wf h hc
  have hsp := lookupRegion_state_param_ne h
  have hmem : city ∈ citiesOf (some rname) := by rw [citiesOf_some h]; exact hc
  have hcond : ¬(info.state_param = "" ∨ city ∉ citiesOf (some rname)) := by
    push_neg
    exact ⟨hsp, hmem⟩
  have hvalid : ¬(city = "" ∨ info.state_param = "") := by
    push_neg
    exact ⟨hcne, hsp⟩
  constructor
  · unfold get_aqi_by_city_name
    rw [if_neg hback]
    show (if info.state_param = "" ∨ city ∉ citiesOf (some rname) then
            invalidCityOut ⟨some info.state_param, some rname⟩ else _) = _
    rw [if_neg hcond]
  · rcases hr with rfl | rfl
    · left
      unfold fetch_air_quality
      show (if city = "" ∨ info.state_param = "" then _ else _) = _
      rw [if_neg hvalid]
    · right
      unfold fetch_air_quality
      show (if city = "" ∨ info.state_param = "" then _ else _) = _
      rw [if_neg hvalid]

/-- Witness for C5: Kagan in Bukhara with a simulated network error. -/
theorem fetch_failure_resets_witness :
    lookupRegion "Bukhara" = some ⟨"Bukhara", ["Bukhara", "Kagan"]⟩ ∧
    "Kagan" ∈ (⟨"Bukhara", ["Bukhara", "Kagan"]⟩ : RegionInfo).cities ∧
    (ApiResult.requestError = ApiResult.requestError ∨
     ApiResult.requestError = ApiResult.unexpectedError) ∧
    (get_aqi_by_city_name "Kagan" ⟨some "Bukhara", some "Bukhara"⟩
        ApiResult.requestError).data = emptyUserData ∧
    (get_aqi_by_city_name "Kagan" ⟨some "Bukhara", some "Bukhara"⟩
        ApiResult.requestError).result = ConvResult.ended ∧
    fetch_air_quality (LocationQuery.cityState "Kagan" "Bukhara")
        ApiResult.requestError = NETWORK_ERROR_MSG := by
  have T := fetch_failure_resets "Bukhara" ⟨"Bukhara", ["Bukhara", "Kagan"]⟩
    "Kagan" (by decide) (by decide) ApiResult.requestError (Or.inl rfl)
  exact ⟨by decide, by decide, Or.inl rfl,
         congrArg HandlerOut.data T.1, congrArg HandlerOut.result T.1, rfl⟩

/-- C2: a valid city selection in `CHOOSING_CITY` fetches with the
chosen city and the stored region's `state_param`, delivers the
formatted report — whose location label contains the chosen city and
which carries the tier label `get_aqi_description` assigns to the
fetched AQI — then clears the session and ends the conversation. -/
theorem city_report_delivery
    (rname : String) (info : RegionInfo) (city : String)
    (h : lookupRegion rname = some info) (hc : city ∈ info.cities)
    (respCity respState : Option String) (aqi : Int) (pollutant : String)
    (temp : Int) :
    get_aqi_by_city_name city ⟨some info.state_param, some rname⟩
        (ApiResult.success respCity respState aqi pollutant temp) =
      ⟨[⟨fetchingMsg city, none⟩,
        ⟨formatReport (city ++ ", " ++ info.state_param) aqi pollutant temp,
         none⟩,
        ⟨"Select another option:", some MAIN_KEYBOARD⟩],
       emptyUserData, ConvResult.ended,
       some (LocationQuery.cityState city info.state_param)⟩ ∧
    (∃ u v, u ++ city.data ++ v =
      (formatReport (city ++ ", " ++ info.state_param) aqi pollutant temp).data) ∧
    (∃ u v, u ++ (get_aqi_description aqi).level.data ++ v =
      (formatReport (city ++ ", " ++ info.state_param) aqi pollutant temp).data) := by
  obtain ⟨hback, hcne⟩ := lookupRegion_city_wf h hc
  have hsp := lookupRegion_state_param_ne h
  have hmem : city ∈ citiesOf (some rname) := by rw [citiesOf_some h]; exact hc
  have hcond : ¬(info.state_param = "" ∨ city ∉ citiesOf (some rname)) := by
    push_neg
    exact ⟨hsp, hmem⟩
  have hvalid : ¬(city = "" ∨ info.state_param = "") := by
    push_neg
    exact ⟨hcne, hsp⟩
  have hfet : fetch_air_quality (LocationQuery.cityState city info.state_param)
      (ApiResult.success respCity respState aqi pollutant temp)
      = formatReport (city ++ ", " ++ info.state_param) aqi pollutant temp := by
    unfold fetch_air_quality
    show (if city = "" ∨ info.state_param = "" then _ else _) = _
    rw [if_neg hvalid]
  refine ⟨?_, ?_, ?_⟩
  · unfold get_aqi_by_city_name
    rw [if_neg hback]
    show (if info.state_param = "" ∨ city ∉ citiesOf (some rname) then
            invalidCityOut ⟨some info.state_param, some rname⟩ else _) = _
    rw [if_neg hcond, hfet]
  · exact ⟨("**" : String).data,
      (", " ++ info.state_param ++
       " Air Quality** \uf8ff\u00fc\u00ed\u00ae\n\n**Current AQI (US):** " ++
       toString aqi ++ " - " ++ (get_aqi_description aqi).level ++
       "\n**Main Pollutant:** " ++ pollutant ++
       "\n**Temperature:** " ++ toString temp ++
       "\u00ac\u221eC\n\n\u201a\u00d1\u03c0\u00d4\u220f\u00e8 *" ++
       (get_aqi_description aqi).message ++ "*").data,
      by simp [formatReport, str_data_append, List.append_assoc]⟩
  · exact ⟨("**" ++ city ++ ", " ++ info.state_param ++
       " Air Quality** \uf8ff\u00fc\u00ed\u00ae\n\n**Current AQI (US):** " ++
       toString aqi ++ " - ").data,
      ("\n**Main Pollutant:** " ++ pollutant ++
       "\n**Temperature:** " ++ toString temp ++
       "\u00ac\u221eC\n\n\u201a\u00d1\u03c0\u00d4\u220f\u00e8 *" ++
       (get_aqi_description aqi).message ++ "*").data,
      by simp [formatReport, str_data_append, List.append_assoc]⟩

/-- Witness for C2: Kagan in Bukhara with a fetched AQI of 75
(Moderate). -/
theorem city_report_delivery_witness :
    lookupRegion "Bukhara" = some ⟨"Bukhara", ["Bukhara", "Kagan"]⟩ ∧
    "Kagan" ∈ (⟨"Bukhara", ["Bukhara", "Kagan"]⟩ : RegionInfo).cities ∧
    (get_aqi_by_city_name "Kagan" ⟨some "Bukhara", some "Bukhara"⟩
        (ApiResult.success none none 75 "p2" 20)).data = emptyUserData ∧
    (get_aqi_by_city_name "Kagan" ⟨some "Bukhara", some "Bukhara"⟩
        (ApiResult.success none none 75 "p2" 20)).result = ConvResult.ended ∧
    (get_aqi_by_city_name "Kagan" ⟨some "Bukhara", some "Bukhara"⟩
        (ApiResult.success none none 75 "p2" 20)).fetchCall
      = some (LocationQuery.cityState "Kagan" "Bukhara") ∧
    (∃ u v, u ++ ("Kagan" : String).data ++ v =
      (formatReport ("Kagan" ++ ", " ++ "Bukhara") 75 "p2" 20).data) ∧
    (∃ u v, u ++ (get_aqi_description 75).level.data ++ v =
      (formatReport ("Kagan" ++ ", " ++ "Bukhara") 75 "p2" 20).data) := by
  have T := city_report_delivery "Bukhara" ⟨"Bukhara", ["Bukhara", "Kagan"]⟩
    "Kagan" (by decide) (by decide) none none 75 "p2" 20
  exact ⟨by decide, by decide,
         congrArg HandlerOut.data T.1, congrArg HandlerOut.result T.1,
         congrArg HandlerOut.fetchCall T.1, T.2.1, T.2.2⟩

/-- C4 (evaluated at the claim's failing input): with the
conversation in `CHOOSING_CITY` and region Bukhara stored, sharing a
location does deliver a report labelled from the client response,
but the dispatcher leaves the application state exactly as it was —
conversation still `CHOOSING_CITY`, session keys still present — so
the session is not cleared, the conversation does not end in the
idle state, and the in-progress flow is not interrupted.
(`handle_location` is registered on the application, outside the
`ConversationHandler`, so its `ConversationHandler.END` return value
at source line 518 is discarded, and its body never calls
`context.user_data.clear()`.) -/
theorem location_share_not_interrupting :
    dispatch ⟨some ConvState.choosingCity, ⟨some "Bukhara", some "Bukhara"⟩⟩
        (Inbound.locationMsg "Location (Lat: 41.31, Lon 69.28)")
        (ApiResult.success (some "Tashkent") (some "Toshkent Shahri") 42 "p2" 21)
      = (⟨some ConvState.choosingCity, ⟨some "Bukhara", some "Bukhara"⟩⟩,
         [⟨"\uf8ff\u00fc\u00ec\u00e7 Location received! Searching for the nearest station...",
           none⟩,
          ⟨formatReport ("Tashkent" ++ ", " ++ "Toshkent Shahri") 42 "p2" 21,
           none⟩,
          ⟨"Select another option:", some MAIN_KEYBOARD⟩],
         some (LocationQuery.coords "Location (Lat: 41.31, Lon 69.28)")) := rfl

/-- Boolean check: every keyboard row holds at most two buttons. -/
def rowsAtMostTwo (rows : List (List String)) : Bool :=
  rows.all (fun row => decide (row.length ≤ 2))

/-- Boolean check: strictly ascending in code-point order. -/
def strictlyAscending : List String → Bool
  | [] => true
  | [_] => true
  | a :: b :: rest => strLt a b && strictlyAscending (b :: rest)

/-- C8: the region menu lists exactly the catalog's region names in
lexicographic ascending order, in rows of at most two, with the
back-to-main control as the trailing single-item row; and for every
catalog region the city menu lists exactly that region's cities in
rows of at most two with the back-to-regions control as the trailing
single-item row. -/
theorem menu_layout_contract :
    get_region_reply_keyboard.dropLast.flatten
        = sortStrings (REGIONS_DATA.map Prod.fst) ∧
    strictlyAscending get_region_reply_keyboard.dropLast.flatten = true ∧
    get_region_reply_keyboard.dropLast.flatten.Perm
        (REGIONS_DATA.map Prod.fst) ∧
    rowsAtMostTwo get_region_reply_keyboard.dropLast = true ∧
    get_region_reply_keyboard.getLast? = some [BUTTON_BACK_MAIN] ∧
    ((REGIONS_DATA.map Prod.fst).all (fun rn =>
        rowsAtMostTwo (get_city_reply_keyboard (some rn)).dropLast &&
        ((get_city_reply_keyboard (some rn)).dropLast.flatten
            == citiesOf (some rn)) &&
        ((get_city_reply_keyboard (some rn)).getLast?
            == some [BUTTON_BACK_REGION]))) = true := by
  refine ⟨by decide, by decide, by decide, by decide, by decide, by decide⟩

/-- Witness for C7 with a dirty starting session. -/
theorem back_nav_session_clean_witness :
    (start_region_selection ⟨some "Bukhara", some "Bukhara"⟩).data
        = ⟨some "Bukhara", some "Bukhara"⟩ ∧
    (select_city BUTTON_BACK_MAIN
        (start_region_selection ⟨some "Bukhara", some "Bukhara"⟩).data).data
        = emptyUserData ∧
    (start_region_selection
        (select_city BUTTON_BACK_MAIN
          (start_region_selection ⟨some "Bukhara", some "Bukhara"⟩).data).data)
        = start_region_selection emptyUserData :=
  back_nav_session_clean ⟨some "Bukhara", some "Bukhara"⟩

/-- Witness for C10 with region Bukhara stored in the session. -/
theorem back_to_regions_keeps_session_witness :
    get_aqi_by_city_name BUTTON_BACK_REGION ⟨some "Bukhara", some "Bukhara"⟩
        ApiResult.requestError =
      ⟨[⟨"Returning to region selection...", some REGION_REPLY_KEYBOARD⟩],
       ⟨some "Bukhara", some "Bukhara"⟩, ConvResult.choosingRegion, none⟩ ∧
    (select_city BUTTON_BACK_MAIN ⟨some "Bukhara", some "Bukhara"⟩).data
        = emptyUserData ∧
    (cancel_conversation ⟨some "Bukhara", some "Bukhara"⟩).data
        = emptyUserData :=
  back_to_regions_keeps_session ⟨some "Bukhara", some "Bukhara"⟩
    ApiResult.requestError
